import Mathlib

/-!
Verification of the error-context library (src/lib.rs).

The library is fully generic Rust code: a wrapper struct `ErrorContext<E, C>`
pairing an error value with a context token, a marker struct `ErrorNoContext<E>`,
a `WithContext` / `WrapContext` attach contract, and `Result`/closure combinators.
We embed it shallowly:

* `ErrorContext` and `ErrorNoContext` are the structs from the source.
* `RResult` is Rust's `Result<O, E>` with `mapErr` for `Result::map_err`.
* Trait methods that dispatch on a type parameter become functions taking the
  relevant capability as an explicit function argument: the `Display` impl of
  the inner error type is a function `dE : E -> String`, the `Error::source`
  impl is `sE : E -> Option A` (abstracting the `Option<&dyn Error>` result),
  and a user-supplied `WithContext` impl with `ContextError = CE` is
  `wc : E -> C -> CE`.
* Rust monomorphises the nested types `ErrorContext<ErrorContext<..., C>, C>`;
  to speak about arbitrary nesting depth in one statement we also give the
  inductive `NestedError E C` of iterated envelopes over a base error, whose
  `display`, `source` and `with_context` equations are, level by level, exactly
  the ones of the corresponding `ErrorContext` impls in the source.
-/

/-- Rust `Result<O, E>` (src/lib.rs uses `std::result::Result`). -/
inductive RResult (O E : Type) where
| ok : O → RResult O E
| err : E → RResult O E
deriving DecidableEq, Repr

/-- Rust `Result::map_err`: apply `f` to the error value, pass `Ok` through. -/
def RResult.mapErr {O E E2 : Type} (f : E → E2) : RResult O E → RResult O E2
| .ok v => .ok v
| .err e => .err (f e)

/-- `ErrorContext<E, C>` (src/lib.rs lines 207-211): public fields `error` and
`context`. -/
structure ErrorContext (E C : Type) where
error : E
context : C
deriving DecidableEq, Repr

/-- `ErrorNoContext<E>` (src/lib.rs line 150): tuple struct around a raw error;
`val` is the Rust field `.0`. -/
structure ErrorNoContext (E : Type) where
val : E
deriving DecidableEq, Repr

/-- `impl Display for ErrorContext` (src/lib.rs lines 213-221):
`write!(f, "while \x7b\x7d got error: \x7b\x7d", self.context, self.error)`,
with the `Display` impls of `C` and `E` passed as `dC` and `dE`. -/
def ErrorContext.display {E C : Type} (dE : E → String) (dC : C → String)
    (self : ErrorContext E C) : String :=
  "while " ++ dC self.context ++ " got error: " ++ dE self.error

/-- `Error::source` of `impl Error for ErrorContext` (src/lib.rs lines 232-234):
`self.error.source()`, with the inner type's `source` passed as `sE`. -/
def ErrorContext.source {E C A : Type} (sE : E → Option A)
    (self : ErrorContext E C) : Option A :=
  sE self.error

/-- `impl Display for ErrorNoContext` (src/lib.rs lines 152-159):
`self.0.fmt(f)`, i.e. the inner value's own display. -/
def ErrorNoContext.display {E : Type} (dE : E → String)
    (self : ErrorNoContext E) : String :=
  dE self.val

/-- `Error::source` of `impl Error for ErrorNoContext` (src/lib.rs lines
169-171): `self.0.source()`. -/
def ErrorNoContext.source {E A : Type} (sE : E → Option A)
    (self : ErrorNoContext E) : Option A :=
  sE self.val

/-- `impl WithContext<C> for ErrorNoContext<E>` (src/lib.rs lines 174-182):
produces `ErrorContext { error: self.0, context }`. -/
def ErrorNoContext.with_context {E C : Type} (self : ErrorNoContext E)
    (context : C) : ErrorContext E C :=
  { error := self.val, context := context }

/-- `impl WithContext<C2> for ErrorContext<E, C>` (src/lib.rs lines 237-245):
produces the new outer envelope `ErrorContext { error: self, context }`. -/
def ErrorContext.with_context {E C C2 : Type} (self : ErrorContext E C)
    (context : C2) : ErrorContext (ErrorContext E C) C2 :=
  { error := self, context := context }

/-- `impl WrapContext<C> for E` (src/lib.rs lines 253-261):
`ErrorContext { error: self, context }` for any `E`. -/
def wrap_context {E C : Type} (self : E) (context : C) : ErrorContext E C :=
  { error := self, context := context }

/-- `ToErrorNoContext::to_root_cause` (src/lib.rs lines 189-193):
`ErrorNoContext(self)`. -/
def to_root_cause {E : Type} (self : E) : ErrorNoContext E :=
  { val := self }

/-- `MapErrorNoContext::map_error_context` (src/lib.rs lines 200-204):
`self.map_err(ToErrorNoContext::to_root_cause)`. -/
def map_error_context {O E : Type} (self : RResult O E) :
    RResult O (ErrorNoContext E) :=
  self.mapErr to_root_cause

/-- `ResultErrorWhile::error_while` (src/lib.rs lines 136-138):
`self.map_err(|e| e.with_context(context))`, the `WithContext<C, ContextError = E>`
impl passed as `wc`. -/
def error_while {O E C : Type} (wc : E → C → E) (self : RResult O E)
    (context : C) : RResult O E :=
  self.mapErr (fun e => wc e context)

/-- `ResultErrorWhile::error_while_with` (src/lib.rs lines 140-145):
`self.map_err(|e| e.with_context(context()))` for a deferred token function. -/
def error_while_with {O E C : Type} (wc : E → C → E) (self : RResult O E)
    (context : Unit → C) : RResult O E :=
  self.mapErr (fun e => wc e (context ()))

/-- `ResultErrorWhileWrap::wrap_error_while` (src/lib.rs lines 275-277):
`self.map_err(|e| e.wrap_context(context))`. -/
def wrap_error_while {O E C : Type} (self : RResult O E) (context : C) :
    RResult O (ErrorContext E C) :=
  self.mapErr (fun e => wrap_context e context)

/-- `ResultErrorWhileWrap::wrap_error_while_with` (src/lib.rs lines 279-284):
`self.map_err(|e| e.wrap_context(context()))` for a deferred token function. -/
def wrap_error_while_with {O E C : Type} (self : RResult O E)
    (context : Unit → C) : RResult O (ErrorContext E C) :=
  self.mapErr (fun e => wrap_context e (context ()))

/-- `in_context_of` (src/lib.rs lines 288-294):
`body().map_err(|e| e.with_context(context))`; the bound
`E: WithContext<C, ContextError = CE>` is the argument `wc`. -/
def in_context_of {O E C CE : Type} (wc : E → C → CE) (context : C)
    (body : Unit → RResult O E) : RResult O CE :=
  (body ()).mapErr (fun e => wc e context)

/-- `in_context_of_with` (src/lib.rs lines 297-304):
`body().map_err(|e| e.with_context(context()))`. -/
def in_context_of_with {O E C CE : Type} (wc : E → C → CE)
    (context : Unit → C) (body : Unit → RResult O E) : RResult O CE :=
  (body ()).mapErr (fun e => wc e (context ()))

/-- `wrap_in_context_of` (src/lib.rs lines 307-313):
`body().map_err(|e| e.wrap_context(context))`. -/
def wrap_in_context_of {O E C : Type} (context : C)
    (body : Unit → RResult O E) : RResult O (ErrorContext E C) :=
  (body ()).mapErr (fun e => wrap_context e context)

/-- `wrap_in_context_of_with` (src/lib.rs lines 316-326):
`body().map_err(|e| e.wrap_context(context()))`. -/
def wrap_in_context_of_with {O E C : Type} (context : Unit → C)
    (body : Unit → RResult O E) : RResult O (ErrorContext E C) :=
  (body ()).mapErr (fun e => wrap_context e (context ()))

/-- The family of iterated envelope types
`ErrorContext<...ErrorContext<E, C>..., C>` over a base error `E` with all
context tokens of one type `C` (as in the crate's own tests, where `C` is
`String` at every level), folded into one inductive so statements can quantify
over the nesting depth. `root e` is the raw error, `wrap inner c` is
`ErrorContext { error: inner, context: c }`. -/
inductive NestedError (E C : Type) where
| root : E → NestedError E C
| wrap : NestedError E C → C → NestedError E C
deriving DecidableEq, Repr

/-- Display of an iterated envelope: at a `wrap` node this is exactly the
formula of `impl Display for ErrorContext` (src/lib.rs line 219), recursing
through the inner value's display; at the `root` it is the raw error's display. -/
def NestedError.display {E C : Type} (dE : E → String) (dC : C → String) :
    NestedError E C → String
| .root e => dE e
| .wrap inner c => "while " ++ dC c ++ " got error: " ++
    NestedError.display dE dC inner

/-- Cause-chain lookup of an iterated envelope: at a `wrap` node this is
`self.error.source()` (src/lib.rs line 233), i.e. the source of the inner
value under its own `Error` impl; at the `root` it is the raw error's own
source `sE`. -/
def NestedError.source {E C A : Type} (sE : E → Option A) :
    NestedError E C → Option A
| .root e => sE e
| .wrap inner _ => NestedError.source sE inner

/-- `with_context` on an iterated envelope (src/lib.rs lines 239-244): a new
outer envelope whose `error` field is the entire previous envelope. -/
def NestedError.with_context {E C : Type} (self : NestedError E C)
    (context : C) : NestedError E C :=
  .wrap self context

/-- Build the iterated envelope for a list of context tokens, outermost
context first in the list, over base error `e`. -/
def NestedError.ofContexts {E C : Type} (contexts : List C) (e : E) :
    NestedError E C :=
  match contexts with
  | [] => .root e
  | c :: rest => .wrap (NestedError.ofContexts rest e) c

/-- The display of an iterated envelope is one clause per nesting level,
outermost context first, the base display last. -/
theorem NestedError.display_ofContexts {E C : Type} (dE : E → String)
    (dC : C → String) (e : E) :
    ∀ contexts : List C,
      (NestedError.ofContexts contexts e).display dE dC =
        (contexts.map (fun c => "while " ++ dC c ++ " got error: ")).foldr
          (fun a b => a ++ b) (dE e)
  | [] => rfl
  | c :: rest => by
    simp only [NestedError.ofContexts, NestedError.display, List.map,
      List.foldr]
    rw [NestedError.display_ofContexts dE dC e rest]

/-- The cause-chain lookup of an iterated envelope of any depth is the base
error's own source. -/
theorem NestedError.source_ofContexts {E C A : Type} (sE : E → Option A)
    (e : E) :
    ∀ contexts : List C,
      (NestedError.ofContexts contexts e).source sE = sE e
  | [] => rfl
  | _ :: rest => NestedError.source_ofContexts sE e rest

/-- C1: the display form of `ErrorContext { error := e, context := c }` is
exactly `"while " ++ display c ++ " got error: " ++ display e`; on an
iterated envelope this yields one clause per nesting level, outermost
context first and the innermost display last, matching the crate's own
test strings. -/
theorem claim_c1_envelope_display :
    (∀ (E C : Type) (dE : E → String) (dC : C → String) (e : E) (c : C),
      (wrap_context e c).display dE dC =
        "while " ++ dC c ++ " got error: " ++ dE e) ∧
    (∀ (E C : Type) (dE : E → String) (dC : C → String) (e : E)
        (contexts : List C),
      (NestedError.ofContexts contexts e).display dE dC =
        (contexts.map (fun c => "while " ++ dC c ++ " got error: ")).foldr
          (fun a b => a ++ b) (dE e)) ∧
    (wrap_context ("oh no!") ("doing stuff")).display (fun s => s)
        (fun s => s) = "while doing stuff got error: oh no!" ∧
    (NestedError.ofContexts ["processing fish sticks", "opening file"]
        ("file is no good")).display (fun s => s) (fun s => s) =
      "while processing fish sticks got error: while opening file got error: file is no good" := by
  refine ⟨fun E C dE dC e c => rfl, ?_, rfl, rfl⟩
  intro E C dE dC e contexts
  exact NestedError.display_ofContexts dE dC e contexts

/-- C2: attaching a new context to an envelope nests: the outer `error`
field is the entire previous envelope unchanged and the outer `context`
field is the new token; after two attach calls one unwrap yields an
envelope (never the raw failure) and two unwraps reach the raw failure. -/
theorem claim_c2_nesting_structural :
    ∀ (E C C2 : Type) (x : ErrorContext E C) (e e2 : E) (c : C) (c2 : C2),
      (x.with_context c2).error = x ∧
      (x.with_context c2).context = c2 ∧
      ((wrap_context e c).with_context c2).error = wrap_context e c ∧
      ((wrap_context e c).with_context c2).error.error = e ∧
      ((wrap_context e c).with_context c2).error.context = c ∧
      ((NestedError.root e : NestedError E C).with_context c).with_context c =
        NestedError.wrap (NestedError.wrap (NestedError.root e) c) c ∧
      NestedError.wrap (NestedError.root e : NestedError E C) c ≠
        NestedError.root e2 := by
  intro E C C2 x e e2 c c2
  refine ⟨rfl, rfl, rfl, rfl, rfl, rfl, ?_⟩
  intro h
  exact NestedError.noConfusion h

/-- C3: `Error::source` of an envelope returns the inner value's own source
(one level at a time), so envelopes of any nesting depth are invisible in
the cause chain: the source of an iterated envelope is the base error's own
source. -/
theorem claim_c3_source_skips_envelopes :
    ∀ (E C A : Type) (sE : E → Option A) (e : E) (c : C),
      ErrorContext.source sE (wrap_context e c) = sE e ∧
      (∀ t : NestedError E C, (t.with_context c).source sE = t.source sE) ∧
      (∀ contexts : List C,
        (NestedError.ofContexts contexts e).source sE = sE e) := by
  intro E C A sE e c
  refine ⟨rfl, fun t => rfl, fun contexts => ?_⟩
  exact NestedError.source_ofContexts sE e contexts

/-- C4: every combinator passes a success value through unchanged, and the
result of the deferred variants on the success path does not depend on the
token-producing function (it holds for every such function), the pure
rendering of the function never being invoked. -/
theorem claim_c4_success_passthrough :
    ∀ (O E C CE : Type) (wc : E → C → E) (wc2 : E → C → CE) (v : O) (c : C)
      (f : Unit → C),
      error_while wc (RResult.ok v) c = RResult.ok v ∧
      error_while_with wc (RResult.ok v) f = RResult.ok v ∧
      wrap_error_while (RResult.ok v : RResult O E) c = RResult.ok v ∧
      wrap_error_while_with (RResult.ok v : RResult O E) f = RResult.ok v ∧
      in_context_of wc2 c (fun _ => (RResult.ok v : RResult O E)) =
        RResult.ok v ∧
      in_context_of_with wc2 f (fun _ => (RResult.ok v : RResult O E)) =
        RResult.ok v ∧
      wrap_in_context_of c (fun _ => (RResult.ok v : RResult O E)) =
        RResult.ok v ∧
      wrap_in_context_of_with f (fun _ => (RResult.ok v : RResult O E)) =
        RResult.ok v := by
  intro O E C CE wc wc2 v c f
  exact ⟨rfl, rfl, rfl, rfl, rfl, rfl, rfl, rfl⟩

/-- C5: the scoped-closure combinators equal evaluating the closure first
and then applying the eager combinator to its result: `in_context_of`
equals `error_while` on the closure's result (and, for a general attach
contract, mapping `with_context` over the error), and `wrap_in_context_of`
equals `wrap_error_while`, i.e. mapping `wrap_context` over the error. -/
theorem claim_c5_scoped_equals_eager :
    ∀ (O E C CE : Type) (wc : E → C → E) (wc2 : E → C → CE) (c : C)
      (body : Unit → RResult O E),
      in_context_of wc c body = error_while wc (body ()) c ∧
      in_context_of wc2 c body = (body ()).mapErr (fun e => wc2 e c) ∧
      wrap_in_context_of c body = wrap_error_while (body ()) c ∧
      wrap_in_context_of c body =
        (body ()).mapErr (fun e => wrap_context e c) := by
  intro O E C CE wc wc2 c body
  exact ⟨rfl, rfl, rfl, rfl⟩

/-- C6: converting a raw failure to the root-cause marker and then attaching
context equals direct envelope construction via `wrap_context`: the values
are equal, hence in particular their display forms are equal. -/
theorem claim_c6_root_cause_then_attach :
    ∀ (E C : Type) (dE : E → String) (dC : C → String) (e : E) (c : C),
      (to_root_cause e).with_context c = wrap_context e c ∧
      ((to_root_cause e).with_context c).display dE dC =
        (wrap_context e c).display dE dC := by
  intro E C dE dC e c
  exact ⟨rfl, rfl⟩

/-- C7: on a failure-carrying result every combinator returns a failure
again — the exact error value each one produces is given, and it is never a
success; the wrap-family combinators and the library's own attach impls
carry the original failure value unchanged inside the result. -/
theorem claim_c7_failure_stays_failure :
    ∀ (O E C CE : Type) (wc : E → C → E) (wc2 : E → C → CE) (e : E) (c : C)
      (f : Unit → C),
      error_while wc (RResult.err e : RResult O E) c =
        RResult.err (wc e c) ∧
      error_while_with wc (RResult.err e : RResult O E) f =
        RResult.err (wc e (f ())) ∧
      wrap_error_while (RResult.err e : RResult O E) c =
        RResult.err (wrap_context e c) ∧
      wrap_error_while_with (RResult.err e : RResult O E) f =
        RResult.err (wrap_context e (f ())) ∧
      in_context_of wc2 c (fun _ => (RResult.err e : RResult O E)) =
        RResult.err (wc2 e c) ∧
      in_context_of_with wc2 f (fun _ => (RResult.err e : RResult O E)) =
        RResult.err (wc2 e (f ())) ∧
      wrap_in_context_of c (fun _ => (RResult.err e : RResult O E)) =
        RResult.err (wrap_context e c) ∧
      wrap_in_context_of_with f (fun _ => (RResult.err e : RResult O E)) =
        RResult.err (wrap_context e (f ())) ∧
      map_error_context (RResult.err e : RResult O E) =
        RResult.err (to_root_cause e) ∧
      (wrap_context e c).error = e ∧
      (to_root_cause e).val = e ∧
      ((to_root_cause e).with_context c).error = e ∧
      (∀ v : O, RResult.err (wc e c) ≠ (RResult.ok v : RResult O E)) := by
  intro O E C CE wc wc2 e c f
  refine ⟨rfl, rfl, rfl, rfl, rfl, rfl, rfl, rfl, rfl, rfl, rfl, rfl, ?_⟩
  intro v h
  exact RResult.noConfusion h

/-- C8: reading the public fields of `wrap_context e c` recovers both
components unchanged: wrap followed by unwrap is the identity on the error
value and on the context token. -/
theorem claim_c8_wrap_unwrap_identity :
    ∀ (E C : Type) (e : E) (c : C),
      (wrap_context e c).error = e ∧ (wrap_context e c).context = c := by
  intro E C e c
  exact ⟨rfl, rfl⟩

/-- C9: every library operation is total: on every input it returns the
explicitly constructed value given here, with the result combinators fully
characterized by an exhaustive case split on the input result — there is no
input on which any operation is undefined or fails. -/
theorem claim_c9_operations_total :
    ∀ (O E C C2 CE : Type) (wc : E → C → E) (wc2 : E → C → CE)
      (x : ErrorContext E C) (n : ErrorNoContext E) (e : E) (c : C)
      (c2 : C2) (f : Unit → C) (body : Unit → RResult O E)
      (r : RResult O E),
      x.with_context c2 = ErrorContext.mk x c2 ∧
      n.with_context c = ErrorContext.mk n.val c ∧
      wrap_context e c = ErrorContext.mk e c ∧
      to_root_cause e = ErrorNoContext.mk e ∧
      ((∃ v, r = RResult.ok v ∧
          map_error_context r = RResult.ok v ∧
          error_while wc r c = RResult.ok v ∧
          error_while_with wc r f = RResult.ok v ∧
          wrap_error_while r c = RResult.ok v ∧
          wrap_error_while_with r f = RResult.ok v) ∨
        (∃ a, r = RResult.err a ∧
          map_error_context r = RResult.err (to_root_cause a) ∧
          error_while wc r c = RResult.err (wc a c) ∧
          error_while_with wc r f = RResult.err (wc a (f ())) ∧
          wrap_error_while r c = RResult.err (wrap_context a c) ∧
          wrap_error_while_with r f =
            RResult.err (wrap_context a (f ())))) ∧
      in_context_of wc2 c body = (body ()).mapErr (fun a => wc2 a c) ∧
      in_context_of_with wc2 f body =
        (body ()).mapErr (fun a => wc2 a (f ())) ∧
      wrap_in_context_of c body =
        (body ()).mapErr (fun a => wrap_context a c) ∧
      wrap_in_context_of_with f body =
        (body ()).mapErr (fun a => wrap_context a (f ())) := by
  intro O E C C2 CE wc wc2 x n e c c2 f body r
  refine ⟨rfl, rfl, rfl, rfl, ?_, rfl, rfl, rfl, rfl⟩
  cases r with
  | ok v => exact Or.inl ⟨v, rfl, rfl, rfl, rfl, rfl, rfl⟩
  | err a => exact Or.inr ⟨a, rfl, rfl, rfl, rfl, rfl, rfl⟩

/-- C10: the root-cause marker is transparent for error reporting: the
display of `ErrorNoContext e` is the display of `e` itself, and its
cause-chain lookup is exactly the source of `e` itself — no clause and no
chain link is added. -/
theorem claim_c10_no_context_transparent :
    ∀ (E A : Type) (dE : E → String) (sE : E → Option A)
      (n : ErrorNoContext E) (e : E),
      n.display dE = dE n.val ∧
      n.source sE = sE n.val ∧
      (to_root_cause e).display dE = dE e ∧
      (to_root_cause e).source sE = sE e := by
  intro E A dE sE n e
  exact ⟨rfl, rfl, rfl, rfl⟩
